import Mathlib

/-!
Verification development for the per-user bot process supervisor
(`app.py`): the process registry (`running_processes`), the launch path
(`bot_start` / `run_bot_process`), the terminator (`bot_stop`), the
restart sequencer (`bot_restart`), the log accessor (`bot_logs`), the
command forwarder stub (`bot_command`), the launch command builder (the
f-string in `bot_start`), and the profile settings path storing
`main_file` through `secure_filename`.

Two embeddings are used:
* a sequential model of one user's registry slot for the handlers that the
  source runs to completion on one thread (`bot_stop`, `bot_restart`,
  `bot_logs`, `bot_command`, the profile store);
* an interleaved small-step model (`threadStep` / `runSched`) for the
  start/watcher/stop threads, whose actions on the shared
  `running_processes` dictionary are split at the source's statement
  granularity, since the source takes no lock.
-/

/-! ### Sequential model of one user's registry slot (bot_stop / bot_restart)

`running_processes.get(user.id)` either misses (`none`) or yields a
`subprocess.Popen` handle.  For `bot_stop` (app.py lines 233-248) the three
observations the code makes about that handle are: `poll() is None` at
entry (`aliveAtPoll`), whether `os.getpgid`/`os.killpg` raises
`ProcessLookupError` at the SIGTERM attempt because the group already
vanished (`goneAtSignal`), and whether `proc.wait(timeout=5)` returns
inside the grace period (`exitsWithinGrace`). -/

structure ProcBehavior where
  aliveAtPoll : Bool
  goneAtSignal : Bool
  exitsWithinGrace : Bool
deriving DecidableEq

/-- The two signals `bot_stop` can dispatch: `os.killpg(pgid, 15)` and
`os.killpg(pgid, 9)`. -/
inductive Sig where
  | sigterm
  | sigkill
deriving DecidableEq

/-- Signal number used in the `os.killpg` call. -/
def Sig.number : Sig → Nat
  | .sigterm => 15
  | .sigkill => 9

/-- A dispatched signal: at which second (counting from the SIGTERM
attempt), which signal, and whether it targeted the whole process group
(`os.killpg`) rather than a single pid. -/
structure SigEvent where
  time : Nat
  sig : Sig
  wholeGroup : Bool
deriving DecidableEq

/-- `proc.wait(timeout=5)` in app.py line 240. -/
def gracePeriod : Nat := 5

inductive StopResult where
  | success
  | notRunning
deriving DecidableEq

structure StopOutcome where
  result : StopResult
  signals : List SigEvent
  /-- Whether, by the time the handler returns, the code has positively
  observed the process's termination: `proc.wait` returned, `poll()` was
  non-`None`, or the OS reported the process group gone
  (`ProcessLookupError`).  Dispatching SIGKILL alone does not set this:
  the source performs no wait or poll after `os.killpg(pgid, 9)`.  When
  there is no entry at all, there is no process to observe and the field
  is vacuously `true`. -/
  exitConfirmed : Bool
deriving DecidableEq

/-- `bot_stop` (app.py lines 233-248) on one user's registry slot.
Returns the HTTP-level outcome together with the slot afterwards.

Faithful control flow: if the entry is absent or `poll()` returns
non-`None`, the handler falls through to the `info` response without
touching the registry (the stale entry is left in place); a non-`None`
`poll()` is itself a confirmed exit.  Otherwise it sends SIGTERM to the
process group at time 0; if the group is already gone that raises
`ProcessLookupError` (the OS confirming the process no longer exists),
and the `except` branch's SIGKILL retry raises again at `os.getpgid` and
is passed — so no signal is actually delivered.  If `wait(timeout=5)`
expires, SIGKILL is dispatched to the still-existing group at time
`gracePeriod` and the handler immediately pops the entry and returns
success, with no further wait or poll: on this path nothing confirms the
process is gone, so `exitConfirmed` is `false`. -/
def bot_stop : Option ProcBehavior → StopOutcome × Option ProcBehavior
  | none => (⟨.notRunning, [], true⟩, none)
  | some b =>
    if b.aliveAtPoll then
      if b.goneAtSignal then
        (⟨.success, [], true⟩, none)
      else if b.exitsWithinGrace then
        (⟨.success, [⟨0, .sigterm, true⟩], true⟩, none)
      else
        (⟨.success, [⟨0, .sigterm, true⟩, ⟨gracePeriod, .sigkill, true⟩], false⟩, none)
    else
      (⟨.notRunning, [], true⟩, some b)

inductive StartResp where
  | success
  | alreadyRunning
deriving DecidableEq

/-- `bot_start`'s synchronous outcome (app.py lines 204-228), sequential
view: the `already running` check at line 206 against the slot, otherwise
the new process handle ends up in the slot and the caller gets the
success response.  (The interleaved model below refines this; the
sequential view is what `bot_restart` composes.) -/
def bot_start (slot : Option ProcBehavior) (newProc : ProcBehavior) :
    StartResp × Option ProcBehavior :=
  match slot with
  | some b => if b.aliveAtPoll then (.alreadyRunning, slot) else (.success, some newProc)
  | none => (.success, some newProc)

/-- `time.sleep(1)` in app.py line 256. -/
def settleDelaySeconds : Nat := 1

structure RestartOutcome where
  responded : StartResp
  stopResult : StopResult
  settleDelay : Nat
deriving DecidableEq

/-- `bot_restart` (app.py lines 253-257): run `bot_stop()` to completion,
discard its return value, sleep the settle delay, then return
`bot_start()`'s response. -/
def bot_restart (slot : Option ProcBehavior) (newProc : ProcBehavior) :
    RestartOutcome × Option ProcBehavior :=
  let rStop := bot_stop slot
  let rStart := bot_start rStop.2 newProc
  (⟨rStart.1, rStop.1.result, settleDelaySeconds⟩, rStart.2)

/-! ### Log accessor (bot_logs) -/

/-- The user's log file as `bot_logs` can observe it: missing, readable
with some content, or present but raising on open/read. -/
inductive LogFileState where
  | absent
  | readable (content : String)
  | unreadable (errText : String)
deriving DecidableEq

def noLogsPlaceholder : String := "No logs found. Start your bot to generate logs."

/-- `os.path.exists(log_path)` (app.py line 266). -/
def osPathExists : LogFileState → Bool
  | .absent => false
  | .readable _ => true
  | .unreadable _ => true

/-- `open(log_path).read()` (app.py lines 267-268), which may raise. -/
def readLogFile : LogFileState → Except String String
  | .absent => .error "No such file or directory"
  | .readable t => .ok t
  | .unreadable e => .error e

/-- `bot_logs` (app.py lines 262-271): `try` the exists-check and read,
returning the placeholder when the file is missing; any exception is
caught and rendered as an `Error reading logs:` text.  Total: it never
propagates an exception to its caller. -/
def bot_logs (fs : LogFileState) : String :=
  let attempt : Except String String :=
    if osPathExists fs then readLogFile fs else .ok noLogsPlaceholder
  match attempt with
  | .ok t => t
  | .error e => "Error reading logs: " ++ e

/-! ### Command forwarder (bot_command) -/

def notImplementedMsg : String := "Direct command input is not yet implemented."

structure CmdResponse where
  status : String
  message : String
  httpCode : Nat
deriving DecidableEq

/-- `bot_command` (app.py lines 276-277).  The handler consults neither
the registry slot nor the text: it is the placeholder
`jsonify(status='info', message='Direct command input is not yet
implemented.'), 501`.  The slot and text parameters model what a real
Send would consult and are ignored exactly as the source ignores them. -/
def bot_command (slot : Option ProcBehavior) (text : String) : CmdResponse :=
  { status := "info", message := notImplementedMsg, httpCode := 501 }

/-! ### Interleaved model of start / watcher / stop threads

The source protects `running_processes` with no lock.  `bot_start`'s check
(line 206) runs on the Flask request thread; the `Popen` and the
dictionary insertion (lines 187-193) run later on the `run_bot_process`
watcher thread; both cleanup pops (lines 199 and 246) are
`pop(user_id, None)` keyed only by the user id.  We model one user's view
of this as explicit threads interleaved by a schedule, one atomic step per
source statement that touches shared state. -/

inductive Resp where
  | startSuccess
  | alreadyRunning
  | stopSuccess
  | stopNotRunning
deriving DecidableEq

/-- Program counter plus thread-local data of one thread.
`sBeforeCheck` is a `bot_start` request thread about to run the line-206
check; the `w*` states walk `run_bot_process` (Popen, dictionary insert,
`proc.wait()`, the failure log write, the `finally` pop); the `st*`
states walk `bot_stop` (lookup+poll, group kill with in-grace wait,
pop+respond). -/
inductive ThreadSt where
  | sBeforeCheck (reqId : Nat) (spawnFails : Bool)
  | wBeforePopen (spawnFails : Bool)
  | wBeforeInsert (pid : Nat)
  | wWaiting (pid : Nat)
  | wBeforeLogError
  | wBeforePop
  | stBeforeLookup (reqId : Nat)
  | stBeforeKill (reqId : Nat) (pid : Nat)
  | stBeforePop (reqId : Nat)
  | done
deriving DecidableEq

/-- Shared state for one user: the `running_processes` slot for that user
(`registry`), which OS pids are currently live, the pid counter, the
user's log lines, and the HTTP responses already returned (tagged by
request id). -/
structure RegSys where
  registry : Option Nat
  live : List Nat
  nextPid : Nat
  log : List String
  responses : List (Nat × Resp)
deriving DecidableEq

/-- The text `run_bot_process` appends on a spawn failure
(app.py lines 196-197). -/
def spawnErrorLine : String := "--- CRITICAL ERROR: Failed to start process ---"

/-- One atomic step of a thread against the shared state.  Returns the new
shared state, the thread's next state, and an optionally spawned thread
(the watcher created by `threading.Thread(...).start()`).

* `sBeforeCheck`: line 206 `user.id in running_processes and
  running_processes[user.id].poll() is None`; on failure responds 400
  `already running`; on success spawns the watcher thread and responds
  `start sequence initiated` (the response is unconditional on the spawn's
  later fate).
* `wBeforePopen`: `subprocess.Popen` (line 187); on failure control moves
  to the `except` log write.
* `wBeforeInsert`: `running_processes[user_id] = proc` (line 193).
* `wWaiting`: `proc.wait()` (line 194); enabled only once its pid is dead.
* `wBeforeLogError`: the `except` branch's log append (lines 196-197).
* `wBeforePop`: the `finally` `running_processes.pop(user_id, None)`
  (line 199) — keyed by user id only, absent key is a no-op.
* `stBeforeLookup`: lines 235-236 `get` plus `poll()`.
* `stBeforeKill`: lines 239-240, SIGTERM to the group and the in-grace
  wait (the scenario process dies to SIGTERM).
* `stBeforePop`: line 246 `pop(user_id, None)` plus the success response.
-/
def threadStep (s : RegSys) : ThreadSt → RegSys × ThreadSt × Option ThreadSt
  | .sBeforeCheck reqId sf =>
    match s.registry with
    | some p =>
      if p ∈ s.live then
        ({ s with responses := s.responses ++ [(reqId, .alreadyRunning)] }, .done, none)
      else
        ({ s with responses := s.responses ++ [(reqId, .startSuccess)] }, .done,
          some (.wBeforePopen sf))
    | none =>
      ({ s with responses := s.responses ++ [(reqId, .startSuccess)] }, .done,
        some (.wBeforePopen sf))
  | .wBeforePopen sf =>
    if sf then
      (s, .wBeforeLogError, none)
    else
      ({ s with live := s.nextPid :: s.live, nextPid := s.nextPid + 1 },
        .wBeforeInsert s.nextPid, none)
  | .wBeforeInsert pid => ({ s with registry := some pid }, .wWaiting pid, none)
  | .wWaiting pid =>
    if pid ∈ s.live then (s, .wWaiting pid, none) else (s, .wBeforePop, none)
  | .wBeforeLogError =>
    ({ s with log := s.log ++ [spawnErrorLine] }, .wBeforePop, none)
  | .wBeforePop => ({ s with registry := none }, .done, none)
  | .stBeforeLookup reqId =>
    match s.registry with
    | some p =>
      if p ∈ s.live then
        (s, .stBeforeKill reqId p, none)
      else
        ({ s with responses := s.responses ++ [(reqId, .stopNotRunning)] }, .done, none)
    | none =>
      ({ s with responses := s.responses ++ [(reqId, .stopNotRunning)] }, .done, none)
  | .stBeforeKill reqId pid =>
    ({ s with live := s.live.erase pid }, .stBeforePop reqId, none)
  | .stBeforePop reqId =>
    ({ s with registry := none, responses := s.responses ++ [(reqId, .stopSuccess)] },
      .done, none)
  | .done => (s, .done, none)

structure SchedCfg where
  sys : RegSys
  threads : List ThreadSt
deriving DecidableEq

/-- Run one step of the thread at index `i` (out-of-range indices are
no-ops); spawned threads are appended to the pool. -/
def sched (cfg : SchedCfg) (i : Nat) : SchedCfg :=
  match cfg.threads[i]? with
  | none => cfg
  | some t =>
    let r := threadStep cfg.sys t
    { sys := r.1,
      threads := cfg.threads.set i r.2.1 ++
        (match r.2.2 with | some nt => [nt] | none => []) }

/-- Run a whole schedule (list of thread indices). -/
def runSched (cfg : SchedCfg) : List Nat → SchedCfg
  | [] => cfg
  | i :: is => runSched (sched cfg i) is

/-- Fresh shared state: empty registry, no live process, no output yet. -/
def sys0 : RegSys :=
  { registry := none, live := [], nextPid := 1, log := [], responses := [] }

/-- Scenario: two Start requests (ids 1 and 2) for the same user arrive
concurrently. -/
def twoStartThreads : List ThreadSt := [.sBeforeCheck 1 false, .sBeforeCheck 2 false]

/-- Scenario: a watcher already launched (thread 0), a Stop request
(id 1), and a second Start request (id 2) racing the watcher's late
`finally` cleanup. -/
def lateWatcherThreads : List ThreadSt :=
  [.wBeforePopen false, .stBeforeLookup 1, .sBeforeCheck 2 false]

/-- Scenario: one Start request (id 1) whose `subprocess.Popen` fails. -/
def failedSpawnThreads : List ThreadSt := [.sBeforeCheck 1 true]

/-! ### Profile settings path and secure_filename (C9)

`profile` (app.py lines 171-175) stores
`user.main_file = secure_filename(main_file)` whenever the submitted form
value is truthy.  `secure_filename` is werkzeug's, on POSIX:
NFKD-normalise and ascii-encode-with-ignore, replace `os.sep` by a space,
split on whitespace and rejoin with underscores, delete every character
outside `A-Za-z0-9_.-`, strip leading/trailing `.` and `_`.  The
NFKD+ascii step is abstracted as a `normalizeAscii` parameter followed by
the ascii filter that `encode('ascii','ignore')` guarantees; every
theorem below holds for an arbitrary such normalisation. -/

/-- The character class `A-Za-z0-9_.-` of werkzeug's
`_filename_ascii_strip_re` (characters it keeps). -/
def isSafeFilenameChar (c : Char) : Bool :=
  (decide (65 ≤ c.toNat) && decide (c.toNat ≤ 90)) ||
  (decide (97 ≤ c.toNat) && decide (c.toNat ≤ 122)) ||
  (decide (48 ≤ c.toNat) && decide (c.toNat ≤ 57)) ||
  c == '_' || c == '.' || c == '-'

/-- Python `str.split()` whitespace. -/
def isPyWhitespace (c : Char) : Bool :=
  c == ' ' || c == '\t' || c == '\n' || c == '\r' || c == '\x0b' || c == '\x0c'

/-- Python `str.split()` with no argument: split on whitespace runs,
discarding empty pieces.  `acc` holds the current piece reversed. -/
def splitWsAux : List Char → List Char → List (List Char)
  | [], acc => if acc = [] then [] else [acc.reverse]
  | c :: cs, acc =>
    if isPyWhitespace c then
      if acc = [] then splitWsAux cs [] else acc.reverse :: splitWsAux cs []
    else
      splitWsAux cs (c :: acc)

/-- Python `str.strip("._")` on a character list. -/
def pyStripDotUnderscore (l : List Char) : List Char :=
  ((l.dropWhile fun c => c == '.' || c == '_').reverse.dropWhile
    fun c => c == '.' || c == '_').reverse

/-- werkzeug `secure_filename` on POSIX (`os.sep = '/'`, no altsep, not
Windows).  `normalizeAscii` stands for `unicodedata.normalize('NFKD', ·)`
followed by `encode('ascii','ignore').decode('ascii')`; the subsequent
filter keeps only codepoints below 128, which that encoding guarantees. -/
def secure_filename (normalizeAscii : String → String) (s : String) : String :=
  let ascii := (normalizeAscii s).data.filter fun c => decide (c.toNat ≤ 127)
  let sepReplaced := ascii.map fun c => if c == '/' then ' ' else c
  let joined := List.intercalate ['_'] (splitWsAux sepReplaced [])
  let kept := joined.filter isSafeFilenameChar
  String.mk (pyStripDotUnderscore kept)

/-- The POST branch of `profile` (app.py lines 171-175): if the submitted
`main_file` field is truthy, the stored value becomes
`secure_filename(main_file)`; otherwise the stored value is unchanged. -/
def profile_post_main_file (normalizeAscii : String → String)
    (current : String) (form_main_file : Option String) : String :=
  match form_main_file with
  | some mf => if mf = "" then current else secure_filename normalizeAscii mf
  | none => current

/-! ### Launch command builder (C5)

The f-string at app.py lines 213-222, split at every interpolation hole.
The literal pieces `cmdLit1` .. `cmdLit10` are transcribed verbatim; the
four interpolated components are `container_path`, `req_file_path`,
`log_path` and `user.main_file`, inserted with no escaping of any kind. -/

def cmdLit1 : String := "\n    cd \""
def cmdLit2 : String := "\"\n    echo \"--- System is starting up at $(date) ---\" > \""
def cmdLit3 : String := "\"\n    if [ -f \""
def cmdLit4 : String :=
  "\" ]; then\n        echo \"--- Installing requirements from requirements.txt ---\" >> \""
def cmdLit5 : String := "\"\n        pip install -r \""
def cmdLit6 : String := "\" >> \""
def cmdLit7 : String := "\" 2>&1\n    fi\n    echo \"--- Starting bot: python3 "
def cmdLit8 : String := " ---\" >> \""
def cmdLit9 : String := "\"\n    exec python3 -u \""
def cmdLit10 : String := "\"\n    "

/-- The `command` f-string built by `bot_start` (app.py lines 213-222):
pure string construction, interpolating the four components verbatim. -/
def buildCommand (container_path req_file_path log_path main_file : String) : String :=
  cmdLit1 ++ container_path ++ cmdLit2 ++ log_path ++ cmdLit3 ++ req_file_path ++
  cmdLit4 ++ log_path ++ cmdLit5 ++ req_file_path ++ cmdLit6 ++ log_path ++
  cmdLit7 ++ main_file ++ cmdLit8 ++ log_path ++ cmdLit9 ++ main_file ++ cmdLit10

/-- Double-quote parity of a character list under POSIX-shell double
quoting (no backslash escaping occurs in the builder's template):
`true` = currently inside a double-quoted region. -/
def quoteParity : List Char → Bool → Bool
  | [], inside => inside
  | c :: cs, inside => quoteParity cs (if c = '\x22' then !inside else inside)

/-- Number of top-level shell command separators (`;` or newline outside
any double-quoted region) in a character list, starting at the given
quote parity.  Each such separator starts a new shell command, so this
count measures the command's top-level statement structure. -/
def sepCount : List Char → Bool → Nat
  | [], _ => 0
  | c :: cs, inside =>
    if c = '\x22' then sepCount cs (!inside)
    else if inside then sepCount cs inside
    else if c = ';' ∨ c = '\n' then 1 + sepCount cs inside
    else sepCount cs inside

/-- A string is shell-inert for the builder's quoting template when it
contains no double quote, no semicolon and no newline. -/
def shellInert (s : String) : Prop :=
  ∀ c ∈ s.data, c ≠ '\x22' ∧ c ≠ ';' ∧ c ≠ '\n'

instance (s : String) : Decidable (shellInert s) :=
  List.decidableBAll _ s.data

/-! ## Helper lemmas -/

theorem string_data_append (s t : String) : (s ++ t).data = s.data ++ t.data := rfl

theorem quoteParity_append (a b : List Char) (i : Bool) :
    quoteParity (a ++ b) i = quoteParity b (quoteParity a i) := by
  induction a generalizing i with
  | nil => rfl
  | cons c cs ih =>
    simp only [List.cons_append, quoteParity]
    exact ih _

theorem sepCount_append (a b : List Char) (i : Bool) :
    sepCount (a ++ b) i = sepCount a i + sepCount b (quoteParity a i) := by
  induction a generalizing i with
  | nil => simp [sepCount, quoteParity]
  | cons c cs ih =>
    simp only [List.cons_append, sepCount, quoteParity, List.append_eq]
    split_ifs with h1 h2 h3
    · rw [ih]
    · rw [ih]
    · rw [ih]; omega
    · rw [ih]

theorem sepCount_inert (l : List Char) :
    (∀ c ∈ l, c ≠ '\x22' ∧ c ≠ ';' ∧ c ≠ '\n') → ∀ i, sepCount l i = 0 := by
  induction l with
  | nil => intro _ _; rfl
  | cons c cs ih =>
    intro h i
    have hc := h c (List.mem_cons_self c cs)
    have hcs := fun d hd => h d (List.mem_cons_of_mem c hd)
    rcases hc with ⟨hq, hs, hn⟩
    cases i with
    | true => simp only [sepCount, if_neg hq, if_pos rfl]; exact ih hcs true
    | false =>
      simp only [sepCount, if_neg hq, Bool.false_eq_true, if_false]
      rw [if_neg]
      · exact ih hcs false
      · rintro (h3 | h3)
        · exact hs h3
        · exact hn h3

theorem quoteParity_inert (l : List Char) :
    (∀ c ∈ l, c ≠ '\x22' ∧ c ≠ ';' ∧ c ≠ '\n') → ∀ i, quoteParity l i = i := by
  induction l with
  | nil => intro _ _; rfl
  | cons c cs ih =>
    intro h i
    have hc := h c (List.mem_cons_self c cs)
    have hcs := fun d hd => h d (List.mem_cons_of_mem c hd)
    simp only [quoteParity, if_neg hc.1]
    exact ih hcs i

theorem mem_of_dropWhile {p : Char → Bool} :
    ∀ {l : List Char} {c : Char}, c ∈ l.dropWhile p → c ∈ l := by
  intro l
  induction l with
  | nil => intro c h; exact absurd h (List.not_mem_nil c)
  | cons a as ih =>
    intro c h
    by_cases hp : p a = true
    · rw [List.dropWhile_cons_of_pos hp] at h
      exact List.mem_cons_of_mem a (ih h)
    · rw [List.dropWhile_cons_of_neg hp] at h
      exact h

/-! ## Claim theorems -/

/-- C4 counterexample: a live process that ignores SIGTERM.  Stop runs the
full escalation (SIGTERM at time 0, SIGKILL at time 5) and returns
success, but the source returns immediately after dispatching SIGKILL
with no further wait or poll, so success is returned without the process
being confirmed gone. -/
theorem c4_counterexample :
    (bot_stop (some ⟨true, false, false⟩)).1.result = .success ∧
    (bot_stop (some ⟨true, false, false⟩)).1.signals =
      [⟨0, .sigterm, true⟩, ⟨gracePeriod, .sigkill, true⟩] ∧
    (bot_stop (some ⟨true, false, false⟩)).1.exitConfirmed = false := by
  decide

/-- C4 (amended): for every Stop of a live process, SIGTERM is sent to the
entire process group before any forceful kill, a SIGKILL is dispatched
only at or after the 5-second grace period and only when the process did
not exit within it, and Stop returns success with the entry removed; but
Stop has confirmed the process gone only when it exited within the grace
period or the group had already vanished at signal time — on the
escalation path success is returned immediately after SIGKILL dispatch
with no confirmation (see the counterexample). -/
theorem c4_amended_stop_escalation (b : ProcBehavior) (halive : b.aliveAtPoll = true) :
    (bot_stop (some b)).1.result = .success ∧
    (bot_stop (some b)).2 = none ∧
    (∀ e ∈ (bot_stop (some b)).1.signals, e.wholeGroup = true) ∧
    (∀ e ∈ (bot_stop (some b)).1.signals, e.sig = .sigkill →
      gracePeriod ≤ e.time ∧ b.exitsWithinGrace = false ∧
      ∃ e2 ∈ (bot_stop (some b)).1.signals, e2.sig = .sigterm ∧ e2.time < e.time) ∧
    ((bot_stop (some b)).1.exitConfirmed = true ↔
      (b.goneAtSignal = true ∨ b.exitsWithinGrace = true)) := by
  rcases b with ⟨a, g, x⟩
  cases a with
  | false => simp at halive
  | true => cases g <;> cases x <;> decide

/-- C4 witness: a live process that exits within the grace period gets
only SIGTERM, the entry is removed, and its exit is confirmed by the
in-grace wait. -/
theorem c4_witness :
    (bot_stop (some ⟨true, false, true⟩)).1.result = .success ∧
    (bot_stop (some ⟨true, false, true⟩)).2 = none ∧
    (∀ e ∈ (bot_stop (some ⟨true, false, true⟩)).1.signals, e.wholeGroup = true) ∧
    (∀ e ∈ (bot_stop (some ⟨true, false, true⟩)).1.signals, e.sig = .sigkill →
      gracePeriod ≤ e.time ∧ (⟨true, false, true⟩ : ProcBehavior).exitsWithinGrace = false ∧
      ∃ e2 ∈ (bot_stop (some ⟨true, false, true⟩)).1.signals,
        e2.sig = .sigterm ∧ e2.time < e.time) ∧
    ((bot_stop (some ⟨true, false, true⟩)).1.exitConfirmed = true ↔
      ((⟨true, false, true⟩ : ProcBehavior).goneAtSignal = true ∨
       (⟨true, false, true⟩ : ProcBehavior).exitsWithinGrace = true)) :=
  c4_amended_stop_escalation ⟨true, false, true⟩ rfl

/-- C8: Stop on an absent entry or an already-exited process returns the
informational not-running result, and an immediately repeated Stop (run on
the slot the first one leaves behind) returns it again — never an error. -/
theorem c8_stop_idempotent_not_running (slot : Option ProcBehavior)
    (h : slot = none ∨ ∃ b, slot = some b ∧ b.aliveAtPoll = false) :
    (bot_stop slot).1.result = .notRunning ∧
    (bot_stop (bot_stop slot).2).1.result = .notRunning := by
  rcases h with rfl | ⟨b, rfl, hb⟩
  · decide
  · rcases b with ⟨a, g, x⟩
    cases a with
    | true => simp at hb
    | false => cases g <;> cases x <;> decide

/-- C8 witness: Stop twice on an already-exited process. -/
theorem c8_witness :
    (bot_stop (some ⟨false, false, false⟩)).1.result = .notRunning ∧
    (bot_stop (bot_stop (some ⟨false, false, false⟩)).2).1.result = .notRunning :=
  c8_stop_idempotent_not_running (some ⟨false, false, false⟩)
    (Or.inr ⟨⟨false, false, false⟩, rfl, rfl⟩)

/-- C7 counterexample: restarting over a live process that ignores
SIGTERM.  The Stop phase dispatches SIGKILL and returns without
confirming the prior process's termination, and Restart proceeds to a
successful Start after the 1-second settle delay — sequencing on signal
dispatch plus sleep, not on confirmed full termination. -/
theorem c7_counterexample :
    (bot_stop (some ⟨true, false, false⟩)).1.exitConfirmed = false ∧
    (bot_restart (some ⟨true, false, false⟩) ⟨true, false, true⟩).1.responded = .success ∧
    (bot_restart (some ⟨true, false, false⟩) ⟨true, false, true⟩).1.settleDelay =
      settleDelaySeconds := by
  decide

/-- C7 (amended): Restart runs Stop to completion, then the fixed
1-second settle delay, then Start; if Stop reports not running, Restart
proceeds to Start anyway and it succeeds; the caller receives exactly
Start's outcome with Stop's outcome discarded; and after the Stop phase
no live handle remains in the Registry slot.  But the completed Stop
guarantees only that the prior process's exit was confirmed or that the
full SIGTERM, grace-period, SIGKILL escalation was dispatched: on the
escalation path Restart proceeds without waiting for — or confirming —
the prior process's termination (see the counterexample). -/
theorem c7_amended_restart_sequencing (slot : Option ProcBehavior) (np : ProcBehavior) :
    (bot_restart slot np).1.responded = (bot_start (bot_stop slot).2 np).1 ∧
    (bot_restart slot np).2 = (bot_start (bot_stop slot).2 np).2 ∧
    (bot_restart slot np).1.settleDelay = settleDelaySeconds ∧
    (∀ b, (bot_stop slot).2 = some b → b.aliveAtPoll = false) ∧
    ((bot_stop slot).1.result = .notRunning → (bot_restart slot np).1.responded = .success) ∧
    ((bot_stop slot).1.exitConfirmed = true ∨
      (bot_stop slot).1.signals = [⟨0, .sigterm, true⟩, ⟨gracePeriod, .sigkill, true⟩]) := by
  rcases slot with _ | ⟨a, g, x⟩
  · simp [bot_restart, bot_stop, bot_start]
  · cases a <;> cases g <;> cases x <;>
      simp [bot_restart, bot_stop, bot_start]

/-- C7 witness: restarting over a live prior process that exits within
the grace period. -/
theorem c7_witness :
    (bot_restart (some ⟨true, false, true⟩) ⟨true, false, true⟩).1.responded =
      (bot_start (bot_stop (some ⟨true, false, true⟩)).2 ⟨true, false, true⟩).1 ∧
    (bot_restart (some ⟨true, false, true⟩) ⟨true, false, true⟩).1.settleDelay =
      settleDelaySeconds ∧
    ((bot_stop (some ⟨true, false, true⟩)).1.exitConfirmed = true ∨
      (bot_stop (some ⟨true, false, true⟩)).1.signals =
        [⟨0, .sigterm, true⟩, ⟨gracePeriod, .sigkill, true⟩]) :=
  ⟨(c7_amended_restart_sequencing (some ⟨true, false, true⟩) ⟨true, false, true⟩).1,
   (c7_amended_restart_sequencing (some ⟨true, false, true⟩) ⟨true, false, true⟩).2.2.1,
   (c7_amended_restart_sequencing (some ⟨true, false, true⟩) ⟨true, false, true⟩).2.2.2.2.2⟩

/-- C10: the Logs operation is a total function with exactly three
outcomes: the file's text when it is readable, the fixed placeholder when
it does not exist, and the textual error message when reading raises. -/
theorem c10_logs_three_outcomes (fs : LogFileState) :
    (fs = .absent → bot_logs fs = noLogsPlaceholder) ∧
    (∀ t, fs = .readable t → bot_logs fs = t) ∧
    (∀ e, fs = .unreadable e → bot_logs fs = "Error reading logs: " ++ e) := by
  rcases fs with _ | t | e <;>
    simp [bot_logs, osPathExists, readLogFile]

/-- C10 witness: the three outcomes at concrete file states. -/
theorem c10_witness :
    bot_logs .absent = noLogsPlaceholder ∧
    bot_logs (.readable "hello") = "hello" ∧
    bot_logs (.unreadable "disk fault") = "Error reading logs: disk fault" :=
  ⟨(c10_logs_three_outcomes .absent).1 rfl,
   (c10_logs_three_outcomes (.readable "hello")).2.1 "hello" rfl,
   (c10_logs_three_outcomes (.unreadable "disk fault")).2.2 "disk fault" rfl⟩

/-- C6 counterexample: with no entry for the user, Send does not fail with
a not-running error: it returns the info-status 501 not-implemented
response. -/
theorem c6_counterexample :
    bot_command none "status" =
      { status := "info", message := notImplementedMsg, httpCode := 501 } ∧
    (bot_command none "status").status ≠ "error" := by
  exact ⟨rfl, by decide⟩

/-- C6 (amended): the Send handler is an unimplemented stub: for every
registry slot and every text it returns the fixed informational 501
not-implemented response, consulting neither the slot nor the text and
never writing to any process input stream. -/
theorem c6_amended_send_stub (slot : Option ProcBehavior) (text : String) :
    bot_command slot text =
      { status := "info", message := notImplementedMsg, httpCode := 501 } := rfl

/-- C1 counterexample: two Start requests for the same user, interleaved
so that the second one's check runs before the first one's watcher thread
has inserted its handle (the source takes no lock between check and
insertion).  Both requests receive the success response while the first
process (pid 1) is still live — and pid 2 is live too, breaking
one-process-per-user. -/
theorem c1_counterexample :
    (runSched { sys := sys0, threads := twoStartThreads } [0, 1, 2, 2, 3, 3]).sys.responses =
      [(1, .startSuccess), (2, .startSuccess)] ∧
    1 ∈ (runSched { sys := sys0, threads := twoStartThreads } [0, 1, 2, 2, 3, 3]).sys.live ∧
    2 ∈ (runSched { sys := sys0, threads := twoStartThreads } [0, 1, 2, 2, 3, 3]).sys.live := by
  decide

/-- C1 (amended): a Start whose check observes a live (non-exited) handle
in the Registry responds AlreadyRunning, spawns no watcher thread, and
changes nothing but the response list; but the check and the watcher's
later insertion are separate unsynchronized steps on different threads, so
two concurrent Starts can both succeed while the first process is still
live (see the counterexample). -/
theorem c1_amended_check (s : RegSys) (p reqId : Nat) (sf : Bool)
    (hreg : s.registry = some p) (hlive : p ∈ s.live) :
    threadStep s (.sBeforeCheck reqId sf) =
      ({ s with responses := s.responses ++ [(reqId, .alreadyRunning)] }, .done, none) := by
  simp [threadStep, hreg, hlive]

/-- C1 witness: the check against a registry holding live pid 1. -/
theorem c1_witness :
    threadStep { registry := some 1, live := [1], nextPid := 2, log := [], responses := [] }
        (.sBeforeCheck 7 false) =
      ({ registry := some 1, live := [1], nextPid := 2, log := [],
         responses := [(7, .alreadyRunning)] }, .done, none) :=
  c1_amended_check _ 1 7 false rfl (by decide)

/-- C2 counterexample: watcher W (thread 0) launches pid 1; Stop kills
pid 1 and removes its entry; a second Start's watcher launches pid 2 and
registers it; then W's `finally` pop — keyed only by the user id — runs
late and removes pid 2's entry while pid 2 is still live.  The late actor
does remove a Registry entry belonging to a different, newer process. -/
theorem c2_counterexample :
    (runSched { sys := sys0, threads := lateWatcherThreads }
        [0, 0, 1, 1, 1, 2, 3, 3]).sys.registry = some 2 ∧
    2 ∈ (runSched { sys := sys0, threads := lateWatcherThreads }
        [0, 0, 1, 1, 1, 2, 3, 3]).sys.live ∧
    (runSched { sys := sys0, threads := lateWatcherThreads }
        [0, 0, 1, 1, 1, 2, 3, 3, 0, 0]).sys.registry = none ∧
    2 ∈ (runSched { sys := sys0, threads := lateWatcherThreads }
        [0, 0, 1, 1, 1, 2, 3, 3, 0, 0]).sys.live := by
  decide

/-- C2 (amended): cleanup is a pop of the user's key with a default, so
the late actor never raises and a pop against an already-empty Registry is
a no-op on the shared state; but because the pop is keyed only by the user
id and not by process identity, a late actor removes whatever entry sits
under the key — including one belonging to a different, newer process for
the same user (see the counterexample). -/
theorem c2_amended_pop_idempotent (s : RegSys) :
    (threadStep s .wBeforePop).1.registry = none ∧
    (threadStep s .wBeforePop).1.live = s.live ∧
    (threadStep s .wBeforePop).1.log = s.log ∧
    (threadStep s .wBeforePop).1.responses = s.responses ∧
    threadStep (threadStep s .wBeforePop).1 .wBeforePop =
      ((threadStep s .wBeforePop).1, .done, none) := by
  rcases s with ⟨r, lv, np, lg, rs⟩
  simp [threadStep]

/-- C3 counterexample: a single Start whose spawn fails.  The failure line
is appended to the log and no Registry entry exists afterwards, but the
response already returned to the caller is the success response — the
caller is never told the launch failed. -/
theorem c3_counterexample :
    (runSched { sys := sys0, threads := failedSpawnThreads } [0, 1, 1, 1]).sys.responses =
      [(1, .startSuccess)] ∧
    (runSched { sys := sys0, threads := failedSpawnThreads } [0, 1, 1, 1]).sys.log =
      [spawnErrorLine] ∧
    (runSched { sys := sys0, threads := failedSpawnThreads } [0, 1, 1, 1]).sys.registry =
      none := by
  decide

/-- C3 (amended): when the spawn call fails, the failure text is appended
to the user's log file and the failed launch creates no Registry entry,
but the caller of Start receives the generic success response regardless,
because the spawn runs on a background thread after Start has already
responded. -/
theorem c3_amended_spawn_failure (livePids : List Nat) (np r : Nat)
    (log0 : List String) (resp0 : List (Nat × Resp)) :
    runSched { sys := { registry := none, live := livePids, nextPid := np,
                        log := log0, responses := resp0 },
               threads := [.sBeforeCheck r true] } [0, 1, 1, 1] =
      { sys := { registry := none, live := livePids, nextPid := np,
                 log := log0 ++ [spawnErrorLine],
                 responses := resp0 ++ [(r, .startSuccess)] },
        threads := [.done, .done] } := by
  rfl

set_option maxRecDepth 8192 in
/-- C5 counterexample: the builder applies no escaping, so a main_file
value containing double quotes and semicolons changes the shell's
top-level statement structure of the produced command — the command gains
command separators outside all double-quoted regions that a quote-free
value does not produce, i.e. the value is interpreted as additional shell
syntax. -/
theorem c5_counterexample :
    sepCount (buildCommand "cp" "cp/requirements.txt" "lp"
        "x\x22; rm -rf ~; echo \x22").data false ≠
      sepCount (buildCommand "cp" "cp/requirements.txt" "lp" "app.py").data false := by
  decide

/-- C5 (amended): the builder performs pure string construction but
applies no escaping to the user-controlled components beyond surrounding
double quotes; a component containing a double-quote character introduces
additional top-level shell command separators (see the counterexample),
while components free of double quotes, semicolons and newlines leave the
command's top-level statement structure exactly as for any other such
components. -/
theorem c5_amended_inert_invariance
    (cp rp lp mf cp2 rp2 lp2 mf2 : String)
    (h1 : shellInert cp) (h2 : shellInert rp) (h3 : shellInert lp) (h4 : shellInert mf)
    (h5 : shellInert cp2) (h6 : shellInert rp2) (h7 : shellInert lp2) (h8 : shellInert mf2) :
    sepCount (buildCommand cp rp lp mf).data false =
      sepCount (buildCommand cp2 rp2 lp2 mf2).data false := by
  simp only [buildCommand, string_data_append, sepCount_append, quoteParity_append,
    sepCount_inert _ h1, sepCount_inert _ h2, sepCount_inert _ h3, sepCount_inert _ h4,
    sepCount_inert _ h5, sepCount_inert _ h6, sepCount_inert _ h7, sepCount_inert _ h8,
    quoteParity_inert _ h1, quoteParity_inert _ h2, quoteParity_inert _ h3,
    quoteParity_inert _ h4, quoteParity_inert _ h5, quoteParity_inert _ h6,
    quoteParity_inert _ h7, quoteParity_inert _ h8, Nat.add_zero, Nat.zero_add]

set_option maxRecDepth 8192 in
/-- C5 witness: two concrete inert component tuples give equal top-level
separator counts. -/
theorem c5_witness :
    shellInert "/data/files/7" ∧ shellInert "/data/files/7/requirements.txt" ∧
    shellInert "/data/logs/7.log" ∧ shellInert "bot.py" ∧
    shellInert "cp" ∧ shellInert "rp" ∧ shellInert "lp" ∧ shellInert "app.py" ∧
    sepCount (buildCommand "/data/files/7" "/data/files/7/requirements.txt"
        "/data/logs/7.log" "bot.py").data false =
      sepCount (buildCommand "cp" "rp" "lp" "app.py").data false :=
  ⟨by decide, by decide, by decide, by decide, by decide, by decide, by decide, by decide,
   c5_amended_inert_invariance "/data/files/7" "/data/files/7/requirements.txt"
     "/data/logs/7.log" "bot.py" "cp" "rp" "lp" "app.py"
     (by decide) (by decide) (by decide) (by decide)
     (by decide) (by decide) (by decide) (by decide)⟩

/-- C9: every main_file value stored by the profile POST handler passes
through secure_filename first, so each character of the stored value lies
in the safe class A-Za-z0-9_.- ; in particular the stored value contains
no path separator, no double quote, no dollar sign, no semicolon, no
space and no backslash. -/
theorem c9_stored_main_file_safe (normalizeAscii : String → String)
    (current mf : String) (hmf : mf ≠ "") :
    ∀ c ∈ (profile_post_main_file normalizeAscii current (some mf)).data,
      isSafeFilenameChar c = true ∧
      c ≠ '/' ∧ c ≠ '\x22' ∧ c ≠ '$' ∧ c ≠ ';' ∧ c ≠ ' ' ∧ c ≠ '\\' := by
  intro c hc
  have hsafe : isSafeFilenameChar c = true := by
    simp only [profile_post_main_file, if_neg hmf, secure_filename,
      pyStripDotUnderscore] at hc
    have h1 := List.mem_reverse.1 hc
    have h2 := mem_of_dropWhile h1
    have h3 := List.mem_reverse.1 h2
    have h4 := mem_of_dropWhile h3
    exact (List.mem_filter.1 h4).2
  refine ⟨hsafe, ?_, ?_, ?_, ?_, ?_, ?_⟩ <;>
    · intro h
      rw [h] at hsafe
      exact absurd hsafe (by decide)

/-- C9 witness: a hostile submitted filename is stored sanitised. -/
theorem c9_witness :
    "../evil bot$.py" ≠ "" ∧
    ∀ c ∈ (profile_post_main_file id "app.py" (some "../evil bot$.py")).data,
      isSafeFilenameChar c = true ∧
      c ≠ '/' ∧ c ≠ '\x22' ∧ c ≠ '$' ∧ c ≠ ';' ∧ c ≠ ' ' ∧ c ≠ '\\' :=
  ⟨by decide, c9_stored_main_file_safe id "app.py" "../evil bot$.py" (by decide)⟩
